import Mathlib

/-!
Verification development for the Daily Task Tracker bot (src/bot.py).

The file shallow-embeds the two in-scope components of the program:

* `TaskParser.parse_message` (src/bot.py lines 100-134): a regex-based
  classifier mapping free text to a `(task, status)` pair.  The Python
  regexes are embedded at character level: `\b` word boundaries, ordered
  alternation, `\s+`/`\s*`, `.` (any char except newline), and
  `re.IGNORECASE`, exactly as the `re` module evaluates them on the
  concrete patterns appearing in the source.

* `GoogleSheetsManager.setup_headers` / `add_task` (src/bot.py lines
  61-96): modelled over an explicit sheet state (a list of rows of cell
  strings) and an abstract backend whose operations may fail, mirroring
  gspread calls that may raise; `add_task` catches every failure and
  returns a boolean, as the Python try/except does.
-/

namespace Bot

/-- Python regex `\w` on the characters this program handles:
ASCII letters, digits and underscore.  The emoji used by the program
(U+2705, U+2713, U+2611, U+FE0F, U+1F504, U+23F3) are all non-word
characters in Python as well. -/
def isWordChar (c : Char) : Bool := c.isAlphanum || c == '_'

/-- Python `str.strip()` / regex `\s` whitespace for the ASCII range. -/
def pyIsSpace (c : Char) : Bool :=
  c == ' ' || c == '\t' || c == '\n' || c == '\r' || c == '\x0b' || c == '\x0c'

/-- Python `str.strip()`: drop whitespace from both ends. -/
def pyStrip (l : List Char) : List Char :=
  ((l.dropWhile pyIsSpace).reverse.dropWhile pyIsSpace).reverse

/-- A `\b` word boundary between two adjacent positions of the text
(`none` = start or end of the string). -/
def isBoundary (a b : Option Char) : Bool :=
  (match a with | none => false | some c => isWordChar c) !=
  (match b with | none => false | some c => isWordChar c)

/-- Case-insensitive literal match: consume `p` from the front of the
text, returning the rest.  Implements `re.IGNORECASE` for the ASCII
words and the (case-less) emoji of the patterns. -/
def eatCI : List Char → List Char → Option (List Char)
  | [], t => some t
  | _ :: _, [] => none
  | p :: ps, c :: cs => if p.toLower == c.toLower then eatCI ps cs else none

/-- Match `\b w \b` at the current position.  `prev` is the text
character just before this position, `text` the suffix from it. -/
def wordMatchAt (w : List Char) (prev : Option Char) (text : List Char) : Bool :=
  match eatCI w text with
  | some rest =>
      isBoundary prev text.head? && isBoundary (text.take w.length).getLast? rest.head?
  | none => false

/-- After `\s+` has consumed at least one whitespace character, the
rest of `\s+(.+)`: succeed on any next character except newline, or
consume further whitespace and continue (regex backtracking). -/
def afterSpace : List Char → Bool
  | [] => false
  | c :: cs => c != '\n' || (pyIsSpace c && afterSpace cs)

/-- Match `\s+(.+)` against a suffix of the text. -/
def spaceThenAny : List Char → Bool
  | [] => false
  | c :: cs => pyIsSpace c && afterSpace cs

/-- Match `\b w \s+(.+)` at the current position, for any alternative
`w` of the (expanded) group `ws`. -/
def wordGapRestAt (ws : List (List Char)) (prev : Option Char) (text : List Char) : Bool :=
  ws.any fun w =>
    match eatCI w text with
    | some rest => isBoundary prev text.head? && spaceThenAny rest
    | none => false

/-- `re.search`: try the position matcher at every position of the
text (including the position past the last character), tracking the
preceding character for `\b`. -/
def searchFrom (m : Option Char → List Char → Bool) : Option Char → List Char → Bool
  | prev, [] => m prev []
  | prev, c :: cs => m prev (c :: cs) || searchFrom m (some c) cs

def reSearch (m : Option Char → List Char → Bool) (text : List Char) : Bool :=
  searchFrom m none text

def strL (s : String) : List Char := s.toList

/-- The group `(completed?|finished?|done)` expanded in the order the
regex engine tries the alternatives (`?` is greedy). -/
def doneWords : List (List Char) :=
  [strL "completed", strL "complete", strL "finished", strL "finish", strL "done"]

/-- The group `(✅|✓|☑️)`; the third glyph is the two code points
U+2611 U+FE0F, as written in the source. -/
def doneGlyphs : List (List Char) := [strL "✅", strL "✓", strL "☑️"]

/-- Alternatives of the done strip pattern
`\b(completed?|finished?|done|✅|✓|☑️)\s*`, in engine order. -/
def doneStripAlts : List (List Char) := doneWords ++ doneGlyphs

def progressWords : List (List Char) :=
  [strL "working on", strL "started", strL "begun", strL "in progress"]

def progressGlyphs : List (List Char) := [strL "🔄", strL "⏳"]

/-- Alternatives of the strip pattern
`\b(working on|started|begun|in progress|🔄|⏳)\s*`, in engine order. -/
def progressStripAlts : List (List Char) := progressWords ++ progressGlyphs

/-- `re.search` over the five `done_patterns` of the source:
`\b(completed?|finished?|done)\b`, `\b(✅|✓|☑️)\b`,
`\bcompleted?\s+(.+)`, `\bfinished?\s+(.+)`, `\bdone\s+(.+)`. -/
def doneMatch (t : List Char) : Bool :=
  reSearch (fun p s => doneWords.any fun w => wordMatchAt w p s) t ||
  reSearch (fun p s => doneGlyphs.any fun w => wordMatchAt w p s) t ||
  reSearch (wordGapRestAt [strL "completed", strL "complete"]) t ||
  reSearch (wordGapRestAt [strL "finished", strL "finish"]) t ||
  reSearch (wordGapRestAt [strL "done"]) t

/-- `re.search` over the four `progress_patterns` of the source:
`\b(working on|started|begun|in progress)\b`, `\b(🔄|⏳)\b`,
`\bworking on\s+(.+)`, `\bstarted\s+(.+)`. -/
def progressMatch (t : List Char) : Bool :=
  reSearch (fun p s => progressWords.any fun w => wordMatchAt w p s) t ||
  reSearch (fun p s => progressGlyphs.any fun w => wordMatchAt w p s) t ||
  reSearch (wordGapRestAt [strL "working on"]) t ||
  reSearch (wordGapRestAt [strL "started"]) t

/-- Length of text consumed by the first alternative (in engine order)
matching at the front of the text; `none` if no alternative matches. -/
def firstAltLen (alts : List (List Char)) (text : List Char) : Option Nat :=
  match alts with
  | [] => none
  | w :: ws =>
      match eatCI w text with
      | some _ => some w.length
      | none => firstAltLen ws text

/-- `re.sub(r'\b(alts)\s*', '', text)`: scan left to right; at a word
boundary where an alternative matches, delete it together with the
following whitespace and continue past the match (non-overlapping);
otherwise keep the character.  `fuel` only drives the recursion; every
step consumes at least one character, so `fuel = text.length` (as used
by `reSubEmpty`) never runs out. -/
def reSubEmptyAux (alts : List (List Char)) : Nat → Option Char → List Char → List Char
  | 0, _, t => t
  | _ + 1, _, [] => []
  | fuel + 1, prev, c :: cs =>
      match (if isBoundary prev (some c) then firstAltLen alts (c :: cs) else none) with
      | some L =>
          let gap := (((c :: cs).drop L).takeWhile pyIsSpace).length
          let n := L + gap
          reSubEmptyAux alts fuel ((c :: cs).take n).getLast? (cs.drop (n - 1))
      | none => c :: reSubEmptyAux alts fuel (some c) cs

def reSubEmpty (alts : List (List Char)) (text : List Char) : List Char :=
  reSubEmptyAux alts text.length none text

/-- `TaskParser.parse_message` over a character list: strip the text,
try the done patterns, then the progress patterns, else default to the
trimmed text with status `Done`.  (Python rebinds `text` to
`text.strip()`; here the stripped text is written out each time.) -/
def parseCore (text : List Char) : List Char × String :=
  if doneMatch (pyStrip text) then
    (pyStrip (reSubEmpty doneStripAlts (pyStrip text)), "Done")
  else if progressMatch (pyStrip text) then
    (pyStrip (reSubEmpty progressStripAlts (pyStrip text)), "In Progress")
  else (pyStrip text, "Done")

/-- `TaskParser.parse_message` (src/bot.py lines 100-134). -/
def parse_message (text : String) : String × String :=
  ((parseCore text.toList).1.asString, (parseCore text.toList).2)

/-- The state of the external spreadsheet: the currently populated
rows, each a list of cell values; list index `i` is sheet row `i + 1`. -/
structure Sheet where
  rows : List (List String)
deriving DecidableEq

/-- Write `new` over `old` starting at the first column, keeping any
cells of `old` beyond the written range (an `update` of a range such as
`A1:E1` touches only those cells). -/
def mergeCells : List String → List String → List String
  | old, [] => old
  | [], v :: vs => v :: mergeCells [] vs
  | _ :: old, v :: vs => v :: mergeCells old vs

/-- Write `vals` into the row with 0-based index `idx`, padding with
empty rows if the sheet is shorter. -/
def updRows : List (List String) → Nat → List String → List (List String)
  | [], 0, vals => [mergeCells [] vals]
  | row :: rest, 0, vals => mergeCells row vals :: rest
  | [], n + 1, vals => [] :: updRows [] n vals
  | row :: rest, n + 1, vals => row :: updRows rest n vals

/-- `self.sheet.update(f'A{r}:E{r}', [[...]])`: one batched write of
the given cell values into the five columns `A:E` of 1-based row `r`. -/
def sheetUpdate (s : Sheet) (r : Nat) (vals : List String) : Sheet :=
  ⟨updRows s.rows (r - 1) vals⟩

/-- `self.sheet.row_values(r)`: the populated cells of 1-based row `r`
(empty list when the row is absent). -/
def row_values (s : Sheet) (r : Nat) : List String :=
  s.rows.getD (r - 1) []

def HEADERS : List String := ["Date", "Time", "Task", "Status", "Notes"]

/-- `GoogleSheetsManager.setup_headers` (src/bot.py lines 61-71):
read row 1; if it is absent (`not headers`) or has fewer than four
cells, write the fixed header row into `A1:E1`, else leave the sheet
unchanged. -/
def setup_headers (s : Sheet) : Sheet :=
  if row_values s 1 = [] ∨ (row_values s 1).length < 4 then sheetUpdate s 1 HEADERS
  else s

/-- The wall clock read by `datetime.now()` at the moment `add_task`
runs, to minute precision. -/
structure Clock where
  year : Nat
  month : Nat
  day : Nat
  hour : Nat
  minute : Nat

def pad2 (n : Nat) : String :=
  if n < 10 then "0" ++ toString n else toString n

def pad4 (n : Nat) : String :=
  if n < 10 then "000" ++ toString n
  else if n < 100 then "00" ++ toString n
  else if n < 1000 then "0" ++ toString n
  else toString n

/-- `now.strftime("%Y-%m-%d")`. -/
def date_str (c : Clock) : String :=
  pad4 c.year ++ "-" ++ pad2 c.month ++ "-" ++ pad2 c.day

/-- `now.strftime("%H:%M")` (24-hour clock). -/
def time_str (c : Clock) : String :=
  pad2 c.hour ++ ":" ++ pad2 c.minute

/-- The external spreadsheet service as seen by `add_task`: reading all
values and updating a row may each fail (a gspread call raising an
exception is an `error` result). -/
structure Backend where
  get_all_values : Sheet → Except String (List (List String))
  update : Sheet → Nat → List String → Except String Sheet

/-- The honest service: `get_all_values` returns the populated rows and
`update` performs the batched range write. -/
def realBackend : Backend where
  get_all_values s := .ok s.rows
  update s r vals := .ok (sheetUpdate s r vals)

/-- A service whose every call raises, modelling network or credential
failure inside a gspread call. -/
def failBackend : Backend where
  get_all_values _ := .error "service unavailable"
  update _ _ _ := .error "service unavailable"

/-- The body of the `try` block of `add_task` on a connected sheet:
count the populated rows, then write the five-tuple into row
`count + 1` of columns `A:E`; any failure of a service call
propagates. -/
def add_task_attempt (b : Backend) (s : Sheet) (now : Clock)
    (task_text status : String) : Except String Sheet :=
  match b.get_all_values s with
  | .error e => .error e
  | .ok rows =>
      let next_row := rows.length + 1
      b.update s next_row [date_str now, time_str now, task_text, status, ""]

/-- `GoogleSheetsManager.add_task` (src/bot.py lines 73-96): return
`false` when the sheet handle is unset; otherwise run the attempt,
catching any exception and converting it to `false`.  The second
component is the resulting sheet state. -/
def add_task (b : Backend) (sheet : Option Sheet) (now : Clock)
    (task_text : String) (status : String := "Done") : Bool × Option Sheet :=
  match sheet with
  | none => (false, none)
  | some s =>
      match add_task_attempt b s now task_text status with
      | .ok s2 => (true, some s2)
      | .error _ => (false, some s)

/-- The reply `handle_message` sends back to the user. -/
inductive Reply where
  | moreDetails
  | recorded (task status : String)
  | apology
deriving DecidableEq

/-- `handle_message` (src/bot.py lines 179-205, the per-message path):
classify the text; if the classified task is shorter than 3 characters
after stripping, ask for more detail and write nothing; otherwise
append and report success or apologise. -/
def handle_message (b : Backend) (sheet : Option Sheet) (now : Clock)
    (text : String) : Reply × Option Sheet :=
  if (pyStrip (parse_message text).1.toList).length < 3 then (.moreDetails, sheet)
  else if (add_task b sheet now (parse_message text).1 (parse_message text).2).1 then
    (.recorded (parse_message text).1 (parse_message text).2,
      (add_task b sheet now (parse_message text).1 (parse_message text).2).2)
  else (.apology, (add_task b sheet now (parse_message text).1 (parse_message text).2).2)

end Bot

namespace Bot

/-! ### Helper lemmas -/

/-- Stripping a string of whitespace characters leaves nothing. -/
theorem pyStrip_eq_nil (l : List Char) (h : ∀ c ∈ l, pyIsSpace c) :
    pyStrip l = [] := by
  unfold pyStrip
  rw [List.dropWhile_eq_nil_iff.mpr h]
  simp

/-- Writing `new` from the first column keeps the cells of `old`
beyond the written range. -/
theorem mergeCells_eq (old new : List String) :
    mergeCells old new = new ++ old.drop new.length := by
  induction new generalizing old with
  | nil => simp [mergeCells]
  | cons v vs ih =>
    cases old with
    | nil => simp [mergeCells, ih]
    | cons o old => simp [mergeCells, ih]

/-- Writing at the 0-based index equal to the row count appends a row. -/
theorem updRows_append (rows : List (List String)) (vals : List String) :
    updRows rows rows.length vals = rows ++ [vals] := by
  induction rows with
  | nil => simp [updRows, mergeCells_eq]
  | cons r rest ih => simp [updRows, ih]

/-! ### Claim theorems -/

/-- C1: the claim says every input containing a done indicator — in
particular the glyph `✅` — is classified `Done` with the indicator
removed, and that `"✅ client meeting"` yields description
`"client meeting"`.  The code disagrees at exactly this input: the
pattern `\b(✅|✓|☑️)\b` requires a word character adjacent to the
glyph, which a glyph at the start of the message followed by a space
never has, so the input falls through to the default branch and the
description keeps the glyph. -/
theorem C1_done_glyph_not_detected :
    parse_message "✅ client meeting" = ("✅ client meeting", "Done") ∧
    ("✅ client meeting" : String) ≠ "client meeting" := by
  constructor
  · decide
  · decide

/-- C2: the claim says every input containing only an in-progress
indicator — including the glyph `🔄` — is classified `InProgress`.
As with C1, `\b(🔄|⏳)\b` cannot match a glyph at the start of the
message, so `"🔄 project planning"` falls through to the default
branch and is classified `Done` with the glyph kept. -/
theorem C2_progress_glyph_not_detected :
    parse_message "🔄 project planning" = ("🔄 project planning", "Done") ∧
    ("Done" : String) ≠ "In Progress" := by
  constructor
  · decide
  · decide

/-- C3: a successful `add_task` on a connected sheet writes the
five-tuple `(date, time, description, status, "")` in one batched
write into columns `A:E` of the row whose index is the count of
currently populated rows plus one, i.e. it appends the tuple as a new
last row, and returns `true`. -/
theorem C3_add_task_appends (s : Sheet) (now : Clock) (task status : String) :
    add_task realBackend (some s) now task status =
      (true, some (sheetUpdate s (s.rows.length + 1)
        [date_str now, time_str now, task, status, ""])) ∧
    sheetUpdate s (s.rows.length + 1)
        [date_str now, time_str now, task, status, ""] =
      ⟨s.rows ++ [[date_str now, time_str now, task, status, ""]]⟩ := by
  constructor
  · rfl
  · unfold sheetUpdate
    rw [Nat.add_sub_cancel, updRows_append]

/-- C4: `add_task` always returns a boolean and never propagates a
failure: with the sheet handle unset it returns `false` writing
nothing, and any error raised by the underlying service is caught and
converted to `false`, leaving the sheet as it was. -/
theorem C4_add_task_never_throws (b : Backend) (now : Clock) (task status : String) :
    add_task b none now task status = (false, none) ∧
    ∀ (s : Sheet) (e : String), add_task_attempt b s now task status = .error e →
      add_task b (some s) now task status = (false, some s) := by
  refine ⟨rfl, fun s e h => ?_⟩
  simp only [add_task]
  rw [h]

theorem C4_add_task_never_throws_witness :
    add_task failBackend none ⟨2025, 10, 12, 9, 30⟩ "draft report" "Done" =
      (false, none) ∧
    add_task failBackend (some ⟨[]⟩) ⟨2025, 10, 12, 9, 30⟩ "draft report" "Done" =
      (false, some ⟨[]⟩) :=
  ⟨(C4_add_task_never_throws failBackend ⟨2025, 10, 12, 9, 30⟩ "draft report" "Done").1,
   (C4_add_task_never_throws failBackend ⟨2025, 10, 12, 9, 30⟩ "draft report" "Done").2
     ⟨[]⟩ "service unavailable" rfl⟩

/-- C5: `setup_headers` is idempotent and never overwrites a valid
header: it leaves a first row of at least four cells untouched, and
when the first row is absent or shorter than four cells it writes the
fixed header row into row 1 leaving all other rows unchanged, so a
second call changes nothing. -/
theorem C5_setup_headers_idempotent (s : Sheet) :
    setup_headers (setup_headers s) = setup_headers s ∧
    (4 ≤ (row_values s 1).length → setup_headers s = s) ∧
    ((row_values s 1).length < 4 →
      row_values (setup_headers s) 1 = HEADERS ∧
      (setup_headers s).rows.drop 1 = s.rows.drop 1) := by
  have hwrite : ∀ t : Sheet, (row_values t 1).length < 4 →
      row_values (setup_headers t) 1 = HEADERS ∧
      (setup_headers t).rows.drop 1 = t.rows.drop 1 := by
    intro t ht
    unfold setup_headers
    rw [if_pos (Or.inr ht)]
    obtain ⟨rows⟩ := t
    cases rows with
    | nil => simp [sheetUpdate, row_values, updRows, mergeCells_eq]
    | cons row rest =>
      have hlen : row.length < 4 := by simpa [row_values] using ht
      have h5 : row.drop HEADERS.length = [] :=
        List.drop_eq_nil_of_le (by simp only [HEADERS, List.length_cons]; omega)
      simp [sheetUpdate, row_values, updRows, mergeCells_eq, h5]
  by_cases hc : row_values s 1 = [] ∨ (row_values s 1).length < 4
  · have hlt : (row_values s 1).length < 4 := by
      rcases hc with h | h
      · rw [h]; simp
      · exact h
    have h1 := hwrite s hlt
    refine ⟨?_, fun hge => absurd hge (by omega), fun _ => h1⟩
    have hcond2 : ¬(row_values (setup_headers s) 1 = [] ∨
        (row_values (setup_headers s) 1).length < 4) := by
      rw [h1.1]
      rintro (h | h) <;> simp [HEADERS] at h
    have hstep : setup_headers (setup_headers s) =
        if row_values (setup_headers s) 1 = [] ∨
           (row_values (setup_headers s) 1).length < 4 then
          sheetUpdate (setup_headers s) 1 HEADERS
        else setup_headers s := rfl
    rw [hstep, if_neg hcond2]
  · have hne : setup_headers s = s := by
      unfold setup_headers
      rw [if_neg hc]
    refine ⟨by rw [hne, hne], fun _ => hne, fun hlt => absurd (Or.inr hlt) hc⟩

theorem C5_setup_headers_idempotent_witness :
    setup_headers (setup_headers ⟨[["2025-10-12"]]⟩) =
      setup_headers ⟨[["2025-10-12"]]⟩ ∧
    setup_headers ⟨[HEADERS]⟩ = ⟨[HEADERS]⟩ ∧
    row_values (setup_headers ⟨[["2025-10-12"]]⟩) 1 = HEADERS :=
  ⟨(C5_setup_headers_idempotent ⟨[["2025-10-12"]]⟩).1,
   (C5_setup_headers_idempotent ⟨[HEADERS]⟩).2.1 (by decide),
   ((C5_setup_headers_idempotent ⟨[["2025-10-12"]]⟩).2.2 (by decide)).1⟩

/-- C6: the status returned by the classifier is always one of the two
values `Done` and `In Progress`; no other status string is produced. -/
theorem C6_status_closed_enumeration (text : String) :
    (parse_message text).2 = "Done" ∨ (parse_message text).2 = "In Progress" := by
  unfold parse_message parseCore
  by_cases h1 : doneMatch (pyStrip text.toList) = true
  · left; rw [if_pos h1]
  · by_cases h2 : progressMatch (pyStrip text.toList) = true
    · right; rw [if_neg h1, if_pos h2]
    · left; rw [if_neg h1, if_neg h2]

/-- C7: when the text matches both a done pattern and an in-progress
pattern, the done branch wins because the done patterns are tested
first, so the status is `Done`. -/
theorem C7_done_checked_first (text : String)
    (hd : doneMatch (pyStrip text.toList) = true)
    (_hp : progressMatch (pyStrip text.toList) = true) :
    (parse_message text).2 = "Done" := by
  unfold parse_message parseCore
  rw [if_pos hd]

theorem C7_done_checked_first_witness :
    doneMatch (pyStrip ("done working on report").toList) = true ∧
    progressMatch (pyStrip ("done working on report").toList) = true ∧
    (parse_message "done working on report").2 = "Done" :=
  ⟨by decide, by decide,
   C7_done_checked_first "done working on report" (by decide) (by decide)⟩

/-- C8: when the text matches none of the done patterns and none of the
in-progress patterns, the classifier returns the trimmed input
unchanged with status `Done`; classification is a total function. -/
theorem C8_identity_fallback (text : String)
    (hd : doneMatch (pyStrip text.toList) = false)
    (hp : progressMatch (pyStrip text.toList) = false) :
    parse_message text = ((pyStrip text.toList).asString, "Done") := by
  unfold parse_message parseCore
  rw [if_neg (by rw [hd]; exact Bool.false_ne_true),
      if_neg (by rw [hp]; exact Bool.false_ne_true)]

theorem C8_identity_fallback_witness :
    doneMatch (pyStrip ("hello world").toList) = false ∧
    progressMatch (pyStrip ("hello world").toList) = false ∧
    parse_message "hello world" = ("hello world", "Done") := by
  refine ⟨by decide, by decide, ?_⟩
  rw [C8_identity_fallback "hello world" (by decide) (by decide)]
  decide

/-- C9: the classifier maps the empty string and every whitespace-only
input to an empty description, and the message handler rejects every
classified description shorter than 3 characters after stripping by
replying with a request for more detail and writing nothing to the
sheet. -/
theorem C9_short_description_rejected (b : Backend) (sheet : Option Sheet)
    (now : Clock) (text : String) :
    (text.toList.all pyIsSpace = true → (parse_message text).1 = "") ∧
    ((pyStrip (parse_message text).1.toList).length < 3 →
      handle_message b sheet now text = (.moreDetails, sheet)) := by
  constructor
  · intro h
    have h0 : pyStrip text.toList = [] :=
      pyStrip_eq_nil _ (by simpa [List.all_eq_true] using h)
    unfold parse_message parseCore
    rw [h0]
    decide
  · intro h
    unfold handle_message
    rw [if_pos h]

theorem C9_short_description_rejected_witness :
    ("".toList.all pyIsSpace = true) ∧
    (parse_message "").1 = "" ∧
    handle_message realBackend (some ⟨[]⟩) ⟨2025, 10, 12, 9, 30⟩ "" =
      (.moreDetails, some ⟨[]⟩) :=
  ⟨by decide,
   (C9_short_description_rejected realBackend (some ⟨[]⟩) ⟨2025, 10, 12, 9, 30⟩ "").1
     (by decide),
   (C9_short_description_rejected realBackend (some ⟨[]⟩) ⟨2025, 10, 12, 9, 30⟩ "").2
     (by decide)⟩

/-- C10: the strip pattern has a leading `\b` but no trailing word
boundary, so once detection fired on the whole word `completed`, the
substitution also removes the prefix `done` of the unrelated word
`doneness`: the input `"completed doneness check"` yields the
description `"ness check"`. -/
theorem C10_embedded_keyword_stripped :
    parse_message "completed doneness check" = ("ness check", "Done") := by
  decide

end Bot
